import Mathlib

/-!
Verification development for the `StorageDevice` base class of blivet
(`src/blivet/devices/storage.py`).

Shallow embedding conventions:
* `Size` values are modelled as `Nat` (blivet's `Size` is an arbitrary
  precision non-negative byte count; Python truthiness of a `Size` is
  `≠ 0`).
* A device is a tree node: its fields plus the list of its parent
  devices (the acyclic parent graph, restricted to the ancestor tree of
  the device under study).
* Stateful methods are state-passing functions; methods that can raise
  return an `Option Err` alongside the state they leave behind (a raise
  does not roll state back), together with a trace of the external
  primitives they invoked (`List Ev`).
* Collaborators whose code is not in `src/` (the `Device` graph-node
  base, the `DeviceFormat` collaborator, the `errors`/`udev`/`flags`
  modules) are modelled from the spec; each such definition carries a
  doc comment starting with `Modelled from the spec:`.
-/

/-- Modelled from the spec: the error taxonomy of `errors.py` (not in
`src/`).  `deviceError msg name` models `errors.DeviceError(msg, name)`
(`name = none` when the constructor is given no device name) and
`valueError msg` models Python's `ValueError(msg)`. -/
inductive Err where
  | deviceError (msg : String) (name : Option String)
  | valueError (msg : String)
deriving DecidableEq

/-- Trace events recording the external primitives an operation invoked:
the device-specific lifecycle primitives (`_create`/`_destroy`/`_setup`/
`_teardown`, no-ops in the base class), the format collaborator's
`setup`/`teardown`, `udev.settle()` and `updateSysfsPath`. -/
inductive Ev where
  | createPrim (name : String)
  | destroyPrim (name : String)
  | setupPrim (name : String)
  | teardownPrim (name : String)
  | fmtSetup (name : String)
  | origFmtTeardown (name : String)
  | fmtTeardownEv (name : String)
  | settle
  | sysfsUpdate (name : String)
deriving DecidableEq

/-- Modelled from the spec: the `DeviceFormat` collaborator (formats
package, not in `src/`): kind tag (`type`, `none` for the empty format),
existence flag, activation `status`, `minSize`/`maxSize` bounds (0 means
"no bound", matching Python truthiness), `resizable`, `hidden`, the
bound device path (`device`), `uuid`, whether the format has a
`mountpoint` attribute (mountable formats only), and the comma-joined
mount option string `options`. -/
structure Fmt where
  type : Option String
  fmtExists : Bool
  status : Bool
  minSize : Nat
  maxSize : Nat
  resizable : Bool
  hidden : Bool
  device : String
  uuid : Option String
  hasMountpoint : Bool
  options : String
deriving DecidableEq

/-- Modelled from the spec: the format factory `getFormat(type, device=...,
exists=...)`; given `none` it returns the canonical empty format bound to
the given path and existence flag. -/
def getFormat (t : Option String) (device : String) (ex : Bool) : Fmt :=
  { type := t, fmtExists := ex, status := false, minSize := 0, maxSize := 0,
    resizable := false, hidden := false, device := device, uuid := none,
    hasMountpoint := false, options := "" }

/-- Modelled from the spec: `DeviceFormat.setup()` activates the format. -/
def fmtSetupOp (fmt : Fmt) : Fmt := { fmt with status := true }

/-- Modelled from the spec: `DeviceFormat.teardown()` deactivates the
format. -/
def fmtTeardownOp (fmt : Fmt) : Fmt := { fmt with status := false }

/-- The per-device state of a `StorageDevice`.

Python instance attributes keep their source names (`devExists` stands
for `exists`, a Lean keyword).  Class-level attributes that subclasses
override (`_resizable`, `_encrypted`, `_isDisk`, the `alignTargetSize`
override `align`, and the `NetworkStorageDevice` subclass marker
`isNetdev`) are modelled as per-device constants.  The fields
`accessibleW` (`os.access(self.path, os.W_OK)`), `pathPresent`
(`os.path.exists(self.path)`), `sysfsDir` (`os.path.isdir(self.sysfsPath)`),
`sysfsBlocks` (the sysfs `size` attribute) and `udevSysfsPath` (the
pyudev lookup result, `none` on lookup failure) model the state of the
surrounding system consulted by `status`, `readCurrentSize` and
`updateSysfsPath`.  `kids` is the graph-node child counter (Device base,
modelled from the spec).  The parted-device cache (`_partedDevice`) is
an external resource handle and is not modelled. -/
structure Fields where
  name : String
  devExists : Bool
  uuid : Option String
  sysfsPath : String
  _format : Fmt
  originalFormat : Fmt
  _size : Nat
  _targetSize : Nat
  _currentSize : Nat
  major : Nat
  minor : Nat
  serial : Option String
  vendor : String
  model : String
  bus : String
  _readonly : Bool
  _protected : Bool
  controllable : Bool
  req_grow : Bool
  _resizable : Bool
  _encrypted : Bool
  _isDisk : Bool
  isNetdev : Bool
  align : Nat → Nat
  accessibleW : Bool
  pathPresent : Bool
  sysfsDir : Bool
  sysfsBlocks : Nat
  udevSysfsPath : Option String
  kids : Nat
  fstabComment : String
  deviceLinks : List String

/-- A `StorageDevice`: its own fields plus its parent devices
(the parent adjacency of the graph-node base, modelled from the spec as
the ancestor tree of the device under study). -/
inductive StorageDevice where
  | mk (f : Fields) (parents : List StorageDevice)

/-- The fields of a device. -/
def fieldsOf : StorageDevice → Fields
  | .mk f _ => f

/-- The parent devices of a device. -/
def parentsOf : StorageDevice → List StorageDevice
  | .mk _ ps => ps

theorem mk_fieldsOf_parentsOf (d : StorageDevice) :
    StorageDevice.mk (fieldsOf d) (parentsOf d) = d := by
  cases d
  rfl

/-- Modelled from the spec: `LINUX_SECTOR_SIZE` from `devices/lib.py`. -/
def LINUX_SECTOR_SIZE : Nat := 512

/-- `path`: `"%s/%s" % (self._devDir, self.name)` with `_devDir = "/dev"`. -/
def pathF (f : Fields) : String := "/dev" ++ "/" ++ f.name

/-- `resizable`: `self._resizable and self.exists and (self.format.type is
None or self.format.resizable or not self.format.exists)`. -/
def resizableF (f : Fields) : Bool :=
  f._resizable && f.devExists &&
    (f._format.type.isNone || f._format.resizable || !f._format.fmtExists)

/-- `status`: `False` if the device does not exist, else
`os.access(self.path, os.W_OK)` (modelled by the `accessibleW` field). -/
def statusF (f : Fields) : Bool :=
  if !f.devExists then false else f.accessibleW

/-- `_getSize`: the effective size, `targetSize` when the device exists,
is resizable and has a non-zero target size, else `_size`. -/
def sizeGetF (f : Fields) : Nat :=
  if f.devExists && resizableF f && (f._targetSize != 0) then f._targetSize
  else f._size

/-- `_getTargetSize`: returns `_targetSize`. -/
def targetSizeGetF (f : Fields) : Nat := f._targetSize

/-- `alignTargetSize`: identity in the base class, subclass overrides are
modelled by the `align` field. -/
def alignTargetSizeF (f : Fields) (newsize : Nat) : Nat := f.align newsize

/-- `readCurrentSize`: 0 unless the device exists, its node path exists
and its sysfs path is a directory, in which case the sysfs block count
times `LINUX_SECTOR_SIZE`. -/
def readCurrentSizeF (f : Fields) : Nat :=
  if f.devExists && f.pathPresent && f.sysfsDir then
    f.sysfsBlocks * LINUX_SECTOR_SIZE
  else 0

/-- `currentSize` property: lazily refreshes the `_currentSize` cache
when it is 0, then returns it.  Returns the value read together with the
possibly-updated state. -/
def currentSizeF (f : Fields) : Nat × Fields :=
  if f._currentSize = 0 then
    (readCurrentSizeF f, { f with _currentSize := readCurrentSizeF f })
  else (f._currentSize, f)

/-- `minSize`: `self.alignTargetSize(self.format.minSize) if self.resizable
else self.currentSize` (the non-resizable arm may refresh the
`_currentSize` cache). -/
def minSizeF (f : Fields) : Nat × Fields :=
  if resizableF f then (f.align f._format.minSize, f) else currentSizeF f

/-- `maxSize`: `self.alignTargetSize(self.format.maxSize) if self.resizable
else self.currentSize`. -/
def maxSizeF (f : Fields) : Nat × Fields :=
  if resizableF f then (f.align f._format.maxSize, f) else currentSizeF f

/-- `_setTargetSize`: reject when `maxSize` is truthy and exceeded, else
when `minSize` is truthy and undershot, else when alignment changes the
value; otherwise store the new target size.  Repeated property reads
within one check are idempotent, so each bound is evaluated once. -/
def setTargetSizeF (f : Fields) (newsize : Nat) : Option Err × Fields :=
  let mx := maxSizeF f
  if mx.1 ≠ 0 && newsize > mx.1 then
    (some (Err.valueError "size is larger than the maximum for this device"), mx.2)
  else
    let mn := minSizeF mx.2
    if mn.1 ≠ 0 && newsize < mn.1 then
      (some (Err.valueError "size is smaller than the minimum for this device"), mn.2)
    else if mn.2.align newsize ≠ newsize then
      (some (Err.valueError "new size would violate alignment requirements"), mn.2)
    else (none, { mn.2 with _targetSize := newsize })

/-- `targetSize` setter at device level (it touches no parent). -/
def setTargetSize (d : StorageDevice) (newsize : Nat) : Option Err × StorageDevice :=
  match d with
  | .mk f ps =>
    let r := setTargetSizeF f newsize
    (r.1, .mk r.2 ps)

/-- `updateSize`: reset the `_currentSize` cache, re-probe, and assign
the probed value to `_size` and `_targetSize` (bypassing setter checks). -/
def updateSizeF (f : Fields) : Fields :=
  let v := readCurrentSizeF f
  { f with _currentSize := v, _size := v, _targetSize := v }

/-- `updateSysfsPath`: raises when the device does not exist; otherwise
stores the udev lookup result, degrading to `""` on lookup failure. -/
def updateSysfsPathF (f : Fields) : Option Err × Fields :=
  if !f.devExists then
    (some (Err.deviceError "device has not been created" (some f.name)), f)
  else
    match f.udevSysfsPath with
    | none => (none, { f with sysfsPath := "" })
    | some p => (none, { f with sysfsPath := p })

/-- `checkSize`: 0 ok, 1 too large, -1 too small (truthy bounds only). -/
def checkSizeF (f : Fields) : Int :=
  if f._format.maxSize ≠ 0 && sizeGetF f > f._format.maxSize then 1
  else if f._format.minSize ≠ 0 && sizeGetF f < f._format.minSize then -1
  else 0

mutual
/-- `readonly` property: `self._readonly or any(p.readonly for p in
self.parents)`. -/
def readonly : StorageDevice → Bool
  | .mk f ps => f._readonly || readonlyList ps

/-- `any(p.readonly for p in ...)` over a parent list. -/
def readonlyList : List StorageDevice → Bool
  | [] => false
  | p :: rest => readonly p || readonlyList rest
end

/-- `protected` property: `self.readonly or self._protected` (named
`protectedDev` because `protected` is a Lean keyword). -/
def protectedDev (d : StorageDevice) : Bool :=
  readonly d || (fieldsOf d)._protected

mutual
/-- `encrypted` property: `self._encrypted or any(p.encrypted for p in
self.parents)`. -/
def encrypted : StorageDevice → Bool
  | .mk f ps => f._encrypted || encryptedList ps

/-- `any(p.encrypted for p in ...)` over a parent list. -/
def encryptedList : List StorageDevice → Bool
  | [] => false
  | p :: rest => encrypted p || encryptedList rest
end

mutual
/-- `growable` property: `getattr(self, "req_grow", False) or
any(p.growable for p in self.parents)` (the dynamic `req_grow`
attribute, absent on a bare `StorageDevice`, is the `req_grow` field,
`false` by default). -/
def growable : StorageDevice → Bool
  | .mk f ps => f.req_grow || growableList ps

/-- `any(p.growable for p in ...)` over a parent list. -/
def growableList : List StorageDevice → Bool
  | [] => false
  | p :: rest => growable p || growableList rest
end

mutual
/-- Modelled from the spec: `any(isinstance(a, NetworkStorageDevice) for
a in self.ancestors)` where `ancestors` (graph-node base, not in `src/`)
ranges over the true ancestors; a device's ancestors are its parents and
their ancestors. -/
def ancestorIsNetdev : StorageDevice → Bool
  | .mk _ ps => ancestorIsNetdevList ps

/-- Whether some member of the list, or one of its ancestors, is a
network storage device. -/
def ancestorIsNetdevList : List StorageDevice → Bool
  | [] => false
  | p :: rest => (fieldsOf p).isNetdev || ancestorIsNetdev p || ancestorIsNetdevList rest
end

/-- Python `str.split(sep)` for a one-character separator, on character
lists (e.g. `"".split(sep) == [""]`, separators at the ends produce
empty pieces). -/
def splitOnChar (sep : Char) : List Char → List (List Char)
  | [] => [[]]
  | c :: cs =>
    if c = sep then [] :: splitOnChar sep cs
    else
      match splitOnChar sep cs with
      | [] => [[c]]
      | p :: rest => (c :: p) :: rest

/-- Python `sep.join(pieces)` for a one-character separator. -/
def joinChar (sep : Char) (pieces : List (List Char)) : List Char :=
  List.intercalate [sep] pieces

/-- `_updateNetDevMountOption`: when the format is mountable, ensure the
`_netdev` option is present exactly when some true ancestor is a network
storage device (`options.split(",")`, `list.remove`/`append`,
`",".join`). -/
def updateNetDev (d : StorageDevice) : StorageDevice :=
  match d with
  | .mk f ps =>
    if !f._format.hasMountpoint then .mk f ps
    else
      let option_list := splitOnChar ',' f._format.options.data
      let is_netdev := ancestorIsNetdevList ps
      let has_netdev_option := option_list.contains "_netdev".data
      if !is_netdev && has_netdev_option then
        let opts := String.mk (joinChar ',' (option_list.erase "_netdev".data))
        .mk { f with _format := { f._format with options := opts } } ps
      else if is_netdev && !has_netdev_option then
        let opts := String.mk (joinChar ',' (option_list ++ ["_netdev".data]))
        .mk { f with _format := { f._format with options := opts } } ps
      else .mk f ps

/-- `_setFormat`: `None` is replaced by the empty format bound to this
device; replacing an active format raises; a format that does not yet
exist is bounds-checked (truthy bounds) against the effective size; on
acceptance the format is stored, its `device` binding is set to the
device's path, and the `_netdev` mount option is reconciled. -/
def setFormat (d : StorageDevice) (fm? : Option Fmt) : Option Err × StorageDevice :=
  match d with
  | .mk f ps =>
    let fm := match fm? with
      | none => getFormat none (pathF f) f.devExists
      | some g => g
    if f._format.status then
      (some (Err.deviceError "cannot replace active format" (some f.name)), .mk f ps)
    else if !fm.fmtExists && fm.maxSize ≠ 0 && decide (fm.maxSize < sizeGetF f) then
      (some (Err.deviceError "device is too large for new format" none), .mk f ps)
    else if !fm.fmtExists && fm.minSize ≠ 0 && decide (fm.minSize > sizeGetF f) then
      (some (Err.deviceError "device is too small for new format" none), .mk f ps)
    else
      (none, updateNetDev (.mk { f with _format := { fm with device := pathF f } } ps))

/-- `_preTeardown`: raise when the device does not exist and the call is
not recursive; skip (return `false`) when inactive, non-controllable, or
protected; otherwise tear down `originalFormat` and the current `format`
when each exists, settle, and return `true`.  `prot` is the caller's
evaluation of the recursive `protected` property. -/
def preTeardownF (f : Fields) (prot : Bool) (recursive : Bool) :
    Option Err × Bool × Fields × List Ev :=
  if !f.devExists && !recursive then
    (some (Err.deviceError "device has not been created" (some f.name)), false, f, [])
  else if !statusF f || !f.controllable || prot then (none, false, f, [])
  else
    let s1 : Fields × List Ev :=
      if f.originalFormat.fmtExists then
        ({ f with originalFormat := fmtTeardownOp f.originalFormat },
         [Ev.origFmtTeardown f.name])
      else (f, [])
    let s2 : Fields × List Ev :=
      if s1.1._format.fmtExists then
        ({ s1.1 with _format := fmtTeardownOp s1.1._format }, [Ev.fmtTeardownEv f.name])
      else (s1.1, [])
    (none, true, s2.1, s1.2 ++ s2.2 ++ [Ev.settle])

mutual
/-- `teardown(recursive)`: when `_preTeardown` raises, propagate; when it
returns `false`, tear down the parents anyway if (and only if) the call
is recursive; otherwise run the device-specific `_teardown` primitive
and then `_postTeardown` (which tears down parents when recursive).
Exceptions from parents propagate, leaving state as the failure left it. -/
def teardown : StorageDevice → Bool → Option Err × StorageDevice × List Ev
  | .mk f ps, recursive =>
    match preTeardownF f (protectedDev (.mk f ps)) recursive with
    | (some e, _, f1, evs) => (some e, .mk f1 ps, evs)
    | (none, false, f1, evs) =>
      if recursive then
        let r := teardownList ps recursive
        (r.1, .mk f1 r.2.1, evs ++ r.2.2)
      else (none, .mk f1 ps, evs)
    | (none, true, f1, evs) =>
      if recursive then
        let r := teardownList ps recursive
        (r.1, .mk f1 r.2.1, evs ++ [Ev.teardownPrim f.name] ++ r.2.2)
      else (none, .mk f1 ps, evs ++ [Ev.teardownPrim f.name])

/-- `teardownParents`: `parent.teardown(recursive=recursive)` for each
parent in order; a raise aborts the loop and propagates. -/
def teardownList : List StorageDevice → Bool → Option Err × List StorageDevice × List Ev
  | [], _ => (none, [], [])
  | p :: rest, recursive =>
    match teardown p recursive with
    | (some e, pd, evs) => (some e, pd :: rest, evs)
    | (none, pd, evs) =>
      let r := teardownList rest recursive
      (r.1, pd :: r.2.1, evs ++ r.2.2)
end

/-- Replace a device's stored current format (used when `setupParents`
activates a parent's format object in place). -/
def setCurFmt (d : StorageDevice) (fm : Fmt) : StorageDevice :=
  match d with
  | .mk f ps => .mk { f with _format := fm } ps

/-- Replace a device's stored original format. -/
def setOrigFmt (d : StorageDevice) (fm : Fmt) : StorageDevice :=
  match d with
  | .mk f ps => .mk { f with originalFormat := fm } ps

mutual
/-- `setup(orig)`: `_preSetup` raises when the device does not exist,
skips when already active or non-controllable, and otherwise sets up the
parents; then the device-specific `_setup` primitive runs and
`_postSetup` settles, refreshes the sysfs path and re-reads the size
when it is still unknown (zero). -/
def setup : StorageDevice → Bool → Option Err × StorageDevice × List Ev
  | .mk f ps, orig =>
    if !f.devExists then
      (some (Err.deviceError "device has not been created" (some f.name)), .mk f ps, [])
    else if statusF f || !f.controllable then (none, .mk f ps, [])
    else
      match setupParentsList ps orig with
      | (some e, ps1, evs) => (some e, .mk f ps1, evs)
      | (none, ps1, evs) =>
        match updateSysfsPathF f with
        | (some e, f1) =>
          (some e, .mk f1 ps1, evs ++ [Ev.setupPrim f.name, Ev.settle])
        | (none, f1) =>
          let f2 := if f1._size = 0 then updateSizeF f1 else f1
          (none, .mk f2 ps1,
           evs ++ [Ev.setupPrim f.name, Ev.settle, Ev.sysfsUpdate f.name])

/-- `setupParents(orig)`: for each parent, `parent.setup(orig)` and then,
when the selected format (`originalFormat` when `orig` else `format`)
has a truthy type and exists, `format.setup()`.  A raise aborts the loop
and propagates. -/
def setupParentsList : List StorageDevice → Bool → Option Err × List StorageDevice × List Ev
  | [], _ => (none, [], [])
  | p :: rest, orig =>
    match setup p orig with
    | (some e, pd, evs) => (some e, pd :: rest, evs)
    | (none, pd, evs) =>
      let pf := fieldsOf pd
      let fmtSel := if orig then pf.originalFormat else pf._format
      let s : StorageDevice × List Ev :=
        if fmtSel.type.isSome && fmtSel.fmtExists then
          ((if orig then setOrigFmt pd (fmtSetupOp fmtSel)
            else setCurFmt pd (fmtSetupOp fmtSel)),
           [Ev.fmtSetup pf.name])
        else (pd, [])
      let r := setupParentsList rest orig
      (r.1, s.1 :: r.2.1, evs ++ s.2 ++ r.2.2)
end

/-- `create()`: `_preCreate` raises when the device already exists and
otherwise sets up the parents; then the device-specific `_create`
primitive runs and `_postCreate` marks the device existing, runs
`setup()`, refreshes the sysfs path, settles, re-reads the size and
reconciles the `_netdev` mount option. -/
def create (d : StorageDevice) : Option Err × StorageDevice × List Ev :=
  match d with
  | .mk f ps =>
    if f.devExists then
      (some (Err.deviceError "device has already been created" (some f.name)), .mk f ps, [])
    else
      match setupParentsList ps false with
      | (some e, ps1, evs) => (some e, .mk f ps1, evs)
      | (none, ps1, evs) =>
        let evs1 := evs ++ [Ev.createPrim f.name]
        match setup (.mk { f with devExists := true } ps1) false with
        | (some e, d2, evs2) => (some e, d2, evs1 ++ evs2)
        | (none, .mk f2 ps2, evs2) =>
          match updateSysfsPathF f2 with
          | (some e, f3) => (some e, .mk f3 ps2, evs1 ++ evs2)
          | (none, f3) =>
            let f4 := updateSizeF f3
            (none, updateNetDev (.mk f4 ps2),
             evs1 ++ evs2 ++ [Ev.sysfsUpdate f.name, Ev.settle])

/-- `isleaf` (graph-node base, modelled from the spec): no children. -/
def isleafF (f : Fields) : Bool := f.kids == 0

/-- `destroy()`: `_preDestroy` raises when the device does not exist or
is not a leaf, then tears the device down (non-recursively); the
device-specific `_destroy` primitive runs and `_postDestroy` clears
`exists`. -/
def destroy (d : StorageDevice) : Option Err × StorageDevice × List Ev :=
  match d with
  | .mk f ps =>
    if !f.devExists then
      (some (Err.deviceError "device has not been created" (some f.name)), .mk f ps, [])
    else if !isleafF f then
      (some (Err.deviceError "Cannot destroy non-leaf device" (some f.name)), .mk f ps, [])
    else
      match teardown (.mk f ps) false with
      | (some e, d1, evs) => (some e, d1, evs)
      | (none, .mk f1 ps1, evs) =>
        (none, .mk { f1 with devExists := false } ps1, evs ++ [Ev.destroyPrim f.name])

/-- Modelled from the spec: `Device.addChild()` (graph-node base, not in
`src/`) increments the parent's child counter; the `Device` constructor
calls it on every parent. -/
def addChildBump (d : StorageDevice) : StorageDevice :=
  match d with
  | .mk f ps => .mk { f with kids := f.kids + 1 } ps

/-- The `StorageDevice` constructor.  `size`, `major` and `minor` are the
`util.numeric_type` of the Python arguments (`None` becomes 0).  For a
non-existent device with a format of truthy minimum size, the initial
size is raised to that minimum.  `_size`/`_targetSize`/`_currentSize`
are initialized, class attributes (`k`) and probed system state (`env`
fields, stored in the device state) are installed, `controllable` is
`not flags.testing`, the graph-node base records the name and parents
(bumping each parent's child count), the format is assigned through the
`format` setter (whose raise aborts construction), `originalFormat`
becomes a deep copy of the assigned format, and an existing, active
device re-reads its size.  `k` bundles the class attributes
(`_resizable`, `_encrypted`, `_isDisk`, the `NetworkStorageDevice`
marker and the `alignTargetSize` override). -/
def init (name : String) (fm? : Option Fmt) (uuid : Option String) (size : Nat)
    (major minor : Nat) (sysfsPath : String) (parents : List StorageDevice)
    (exists_flag : Bool) (serial : Option String) (vendor model bus : String)
    (k : Fields) (testing : Bool) : Except Err StorageDevice :=
  let size1 :=
    match fm? with
    | some fm =>
      if !exists_flag && fm.minSize ≠ 0 then
        let min_size := max size fm.minSize
        if min_size > size then min_size else size
      else size
    | none => size
  let f0 : Fields :=
    { name := name, devExists := exists_flag, uuid := uuid, sysfsPath := sysfsPath,
      _format := getFormat none "" false,
      originalFormat := getFormat none "" false,
      _size := size1, _targetSize := size1,
      _currentSize := if exists_flag then size1 else 0,
      major := major, minor := minor, serial := serial,
      vendor := vendor, model := model, bus := bus,
      _readonly := false, _protected := false, controllable := !testing,
      req_grow := false, _resizable := k._resizable, _encrypted := k._encrypted,
      _isDisk := k._isDisk, isNetdev := k.isNetdev, align := k.align,
      accessibleW := k.accessibleW, pathPresent := k.pathPresent,
      sysfsDir := k.sysfsDir, sysfsBlocks := k.sysfsBlocks,
      udevSysfsPath := k.udevSysfsPath,
      kids := 0, fstabComment := "", deviceLinks := [] }
  let parents1 := parents.map addChildBump
  match setFormat (.mk f0 parents1) fm? with
  | (some e, _) => .error e
  | (none, .mk f1 ps1) =>
    let f2 := { f1 with originalFormat := f1._format }
    let f3 := if f2.devExists && statusF f2 then updateSizeF f2 else f2
    .ok (.mk f3 ps1)

theorem splitOnChar_ne_nil (sep : Char) (l : List Char) : splitOnChar sep l ≠ [] := by
  induction l with
  | nil => simp [splitOnChar]
  | cons c cs ih =>
    simp only [splitOnChar]
    split
    · simp
    · cases h : splitOnChar sep cs with
      | nil => simp
      | cons q qs => simp

theorem mem_splitOnChar_length (sep : Char) (l : List Char) (p : List Char)
    (hp : p ∈ splitOnChar sep l) :
    p.length ≤ l.length ∧ (sep ∈ l → p.length < l.length) := by
  induction l generalizing p with
  | nil =>
    simp [splitOnChar] at hp
    subst hp
    simp
  | cons c cs ih =>
    simp only [splitOnChar] at hp
    by_cases hc : c = sep
    · rw [if_pos hc] at hp
      rcases List.mem_cons.mp hp with rfl | hp
      · refine ⟨by simp, fun _ => by simp⟩
      · rcases ih p hp with ⟨h1, _⟩
        exact ⟨Nat.le_succ_of_le h1, fun _ => Nat.lt_succ_of_le h1⟩
    · rw [if_neg hc] at hp
      have hsep_cs : sep ∈ c :: cs → sep ∈ cs := by
        intro hmem
        rcases List.mem_cons.mp hmem with h | h
        · exact absurd h.symm hc
        · exact h
      revert hp
      cases hq : splitOnChar sep cs with
      | nil => intro _; exact absurd hq (splitOnChar_ne_nil sep cs)
      | cons q qs =>
        intro hp
        rcases List.mem_cons.mp hp with rfl | hp
        · have hqmem : q ∈ splitOnChar sep cs := by
            rw [hq]; exact List.mem_cons_self q qs
          rcases ih q hqmem with ⟨h1, h2⟩
          constructor
          · simpa using Nat.succ_le_succ h1
          · intro hmem
            simpa using Nat.succ_lt_succ (h2 (hsep_cs hmem))
        · have hpmem : p ∈ splitOnChar sep cs := by
            rw [hq]; exact List.mem_cons_of_mem q hp
          rcases ih p hpmem with ⟨h1, _⟩
          exact ⟨Nat.le_succ_of_le h1, fun _ => Nat.lt_succ_of_le h1⟩

theorem not_mem_of_mem_splitOnChar (sep : Char) (l : List Char) (p : List Char)
    (hp : p ∈ splitOnChar sep l) : sep ∉ p := by
  induction l generalizing p with
  | nil =>
    simp [splitOnChar] at hp
    subst hp
    simp
  | cons c cs ih =>
    simp only [splitOnChar] at hp
    by_cases hc : c = sep
    · rw [if_pos hc] at hp
      rcases List.mem_cons.mp hp with rfl | hp
      · simp
      · exact ih p hp
    · rw [if_neg hc] at hp
      revert hp
      cases hq : splitOnChar sep cs with
      | nil => intro _; exact absurd hq (splitOnChar_ne_nil sep cs)
      | cons q qs =>
        intro hp
        rcases List.mem_cons.mp hp with rfl | hp
        · intro hmem
          rcases List.mem_cons.mp hmem with h | h
          · exact hc h.symm
          · have hqmem : q ∈ splitOnChar sep cs := by
              rw [hq]; exact List.mem_cons_self q qs
            exact ih q hqmem h
        · have hpmem : p ∈ splitOnChar sep cs := by
            rw [hq]; exact List.mem_cons_of_mem q hp
          exact ih p hpmem

/-- The non-cciss arm of `isNameValid`: reject names with a NUL or `/`
character and the literal names `.` and `..`. -/
def nameBaseValid (l : List Char) : Bool :=
  let badchars := l.any fun c => c = '\x00' || c = '/'
  !(badchars || l == ".".data || l == "..".data)

theorem slash_mem_of_cciss (l : List Char)
    (h : List.isPrefixOf "cciss/".data l = true) : '/' ∈ l := by
  rw [List.isPrefixOf_iff_prefix] at h
  rcases h with ⟨t, ht⟩
  rw [← ht]
  simp

/-- `isNameValid` (classmethod), on character lists: names starting with
`cciss/` are validated component-wise on the `/`-split pieces (each via
a recursive call); every other name passes iff it has no NUL or `/` and
is not `.` or `..`. -/
def isNameValidL (l : List Char) : Bool :=
  if h : List.isPrefixOf "cciss/".data l then
    ((splitOnChar '/' l).attach.all fun p => isNameValidL p.1)
  else nameBaseValid l
termination_by l.length
decreasing_by
  exact (mem_splitOnChar_length '/' l p.1 p.2).2 (slash_mem_of_cciss l h)

/-- `isNameValid(name)`. -/
def isNameValid (name : String) : Bool := isNameValidL name.data

theorem isNameValidL_base (l : List Char)
    (h : ¬ List.isPrefixOf "cciss/".data l = true) :
    isNameValidL l = nameBaseValid l := by
  rw [isNameValidL, dif_neg h]

theorem isNameValidL_cciss (l : List Char)
    (h : List.isPrefixOf "cciss/".data l = true) :
    isNameValidL l = (splitOnChar '/' l).all nameBaseValid := by
  rw [isNameValidL, dif_pos h]
  have hpiece : ∀ p ∈ splitOnChar '/' l, isNameValidL p = nameBaseValid p := by
    intro p hp
    apply isNameValidL_base
    intro hpre
    exact not_mem_of_mem_splitOnChar '/' l p hp (slash_mem_of_cciss p hpre)
  rw [Bool.eq_iff_iff]
  simp only [List.all_eq_true, Subtype.forall]
  constructor
  · intro hall p hp
    rw [← hpiece p hp]
    exact hall p hp (List.mem_attach _ _)
  · intro hall p hp hmem
    rw [hpiece p hp]
    exact hall p hp

/-- `resizable` at device level. -/
def resizable (d : StorageDevice) : Bool := resizableF (fieldsOf d)

/-- The `size` getter at device level. -/
def sizeGet (d : StorageDevice) : Nat := sizeGetF (fieldsOf d)

/-- The `targetSize` getter at device level. -/
def targetSizeGet (d : StorageDevice) : Nat := targetSizeGetF (fieldsOf d)

/-- Identity alignment: the base-class `alignTargetSize`. -/
def idAlign : Nat → Nat := fun n => n

/-- A baseline device-state record for concrete test devices: a planned
(`exists=False`) bare `StorageDevice` named `dev0` with all defaults. -/
def baseF : Fields :=
  { name := "dev0", devExists := false, uuid := none, sysfsPath := "",
    _format := getFormat none "" false, originalFormat := getFormat none "" false,
    _size := 0, _targetSize := 0, _currentSize := 0, major := 0, minor := 0,
    serial := none, vendor := "", model := "", bus := "",
    _readonly := false, _protected := false, controllable := true,
    req_grow := false, _resizable := false, _encrypted := false, _isDisk := false,
    isNetdev := false, align := idAlign, accessibleW := false, pathPresent := false,
    sysfsDir := false, sysfsBlocks := 0, udevSysfsPath := none,
    kids := 0, fstabComment := "", deviceLinks := [] }

/-- Fixture: an existing resizable device with tracked size 3 and target
size 7. -/
def d2a : Fields :=
  { baseF with devExists := true, _resizable := true, _size := 3, _targetSize := 7 }

/-- Fixture: a planned device with tracked size 3 and target size 7. -/
def d2b : Fields :=
  { baseF with _size := 3, _targetSize := 7 }

/-- C2: for every `StorageDevice`, the `size` getter returns `targetSize`
when `exists` is true, the device is resizable and `targetSize` is
non-zero, and returns the internally tracked `_size` field in every
other case. -/
theorem c2_size_getter (d : StorageDevice) :
    ((fieldsOf d).devExists = true ∧ resizable d = true ∧ targetSizeGet d ≠ 0 →
      sizeGet d = targetSizeGet d) ∧
    (¬((fieldsOf d).devExists = true ∧ resizable d = true ∧ targetSizeGet d ≠ 0) →
      sizeGet d = (fieldsOf d)._size) := by
  constructor
  · rintro ⟨h1, h2, h3⟩
    rw [resizable] at h2
    rw [targetSizeGet, targetSizeGetF] at h3 ⊢
    rw [sizeGet, sizeGetF, if_pos]
    simp [h1, h2, h3]
  · intro h
    rw [sizeGet, sizeGetF, if_neg]
    intro hc
    simp only [Bool.and_eq_true, bne_iff_ne] at hc
    exact h ⟨hc.1.1, by rw [resizable]; exact hc.1.2, hc.2⟩

/-- Witness for C2: a resizable existing device with non-zero target size
yields that target size; a planned device yields its tracked size. -/
theorem c2_size_getter_witness :
    sizeGet (.mk d2a []) = 7 ∧ sizeGet (.mk d2b []) = 3 := by
  constructor
  · exact (c2_size_getter (.mk d2a [])).1 ⟨rfl, rfl, by decide⟩
  · exact (c2_size_getter (.mk d2b [])).2 (by intro hc; exact absurd hc.1 (by decide))

/-- Fixture: a planned device flagged resizable with a resizable format,
tracked size 3 and target size 7. -/
def d10 : Fields :=
  { baseF with
      _resizable := true, _size := 3, _targetSize := 7,
      _format := { getFormat none "" false with resizable := true } }

/-- C10: for every `StorageDevice` with `exists=false`, `resizable` is
false regardless of `_resizable` and the format, so the effective size is
the internally tracked `_size` field. -/
theorem c10_nonexistent_not_resizable (d : StorageDevice)
    (h : (fieldsOf d).devExists = false) :
    resizable d = false ∧ sizeGet d = (fieldsOf d)._size := by
  constructor
  · rw [resizable, resizableF]
    simp [h]
  · rw [sizeGet, sizeGetF, if_neg]
    simp [h]

/-- Witness for C10: a planned device with `_resizable=True`, a resizable
format and a non-zero target size is still not resizable and reports its
tracked size. -/
theorem c10_nonexistent_not_resizable_witness :
    resizable (.mk d10 []) = false ∧ sizeGet (.mk d10 []) = 3 :=
  c10_nonexistent_not_resizable (.mk d10 []) rfl

/-- Fixture: an existing bare device. -/
def d7 : Fields := { baseF with devExists := true }

/-- C7: for every `StorageDevice` with `exists=true`, `create()` raises
the already-exists device error naming the device, invokes no primitive
(empty trace) and leaves the device state untouched (so `exists` stays
true and no parent is set up). -/
theorem c7_create_existing (d : StorageDevice)
    (h : (fieldsOf d).devExists = true) :
    create d = (some (Err.deviceError "device has already been created"
      (some (fieldsOf d).name)), d, []) := by
  cases d with
  | mk f ps =>
    simp only [fieldsOf] at h ⊢
    simp [create, h]

/-- Witness for C7. -/
theorem c7_create_existing_witness :
    create (.mk d7 []) =
      (some (Err.deviceError "device has already been created" (some "dev0")),
       .mk d7 [], []) :=
  c7_create_existing (.mk d7 []) rfl

/-- Fixture: a planned device with one registered child. -/
def d6a : Fields := { baseF with kids := 1 }

/-- Fixture: an existing device with one registered child. -/
def d6b : Fields := { baseF with devExists := true, kids := 1 }

/-- Counterexample for C6: `destroy()` on a *non-existent* device that has
a child raises the not-created error, not the not-a-leaf error the claim
promises. -/
theorem c6_destroy_counterexample :
    destroy (.mk d6a []) =
      (some (Err.deviceError "device has not been created" (some "dev0")),
       .mk d6a [], []) ∧
    Err.deviceError "device has not been created" (some "dev0") ≠
      Err.deviceError "Cannot destroy non-leaf device" (some "dev0") := by
  constructor
  · rfl
  · decide

/-- C6 as amended: `destroy()` on a device with at least one child always
raises (the not-a-leaf error naming the device when the device exists,
the not-created error when it does not), leaves the whole state — in
particular `exists` — unchanged, and invokes no destruction primitive
(empty trace). -/
theorem c6_destroy_with_child (d : StorageDevice)
    (h : 1 ≤ (fieldsOf d).kids) :
    ((fieldsOf d).devExists = true →
      destroy d = (some (Err.deviceError "Cannot destroy non-leaf device"
        (some (fieldsOf d).name)), d, [])) ∧
    ((fieldsOf d).devExists = false →
      destroy d = (some (Err.deviceError "device has not been created"
        (some (fieldsOf d).name)), d, [])) := by
  cases d with
  | mk f ps =>
    simp only [fieldsOf] at h ⊢
    have hleaf : isleafF f = false := by
      rw [isleafF]
      simp only [beq_eq_false_iff_ne]
      omega
    constructor
    · intro he
      simp [destroy, he, hleaf]
    · intro he
      simp [destroy, he]

/-- Witness for C6 (amended): both arms at concrete devices with a child. -/
theorem c6_destroy_with_child_witness :
    destroy (.mk d6b []) =
      (some (Err.deviceError "Cannot destroy non-leaf device" (some "dev0")),
       .mk d6b [], []) ∧
    destroy (.mk d6a []) =
      (some (Err.deviceError "device has not been created" (some "dev0")),
       .mk d6a [], []) := by
  constructor
  · exact (c6_destroy_with_child (.mk d6b []) (by decide)).1 rfl
  · exact (c6_destroy_with_child (.mk d6a []) (by decide)).2 rfl

/-- Counterexample for C9: the code accepts the empty name
(`isNameValid("") == True`), while the claim says the empty name is
rejected. -/
theorem c9_empty_name_counterexample : isNameValid "" = true := by
  rw [isNameValid, isNameValidL_base]
  · decide
  · decide

/-- C9 as amended: `isNameValid` validates a `cciss/`-prefixed name
component-wise on its `/`-split pieces; any other name is rejected
exactly when it contains a NUL character or `/` or equals `.` or `..`.
There is no emptiness check (the empty name is accepted). -/
theorem c9_isNameValid (name : String) :
    (List.isPrefixOf "cciss/".data name.data = true →
      (isNameValid name = true ↔
        ∀ p ∈ splitOnChar '/' name.data, nameBaseValid p = true)) ∧
    (¬List.isPrefixOf "cciss/".data name.data = true →
      (isNameValid name = false ↔
        ((∃ c ∈ name.data, c = '\x00' ∨ c = '/') ∨
          name.data = ".".data ∨ name.data = "..".data))) := by
  constructor
  · intro h
    rw [isNameValid, isNameValidL_cciss name.data h]
    exact List.all_eq_true
  · intro h
    rw [isNameValid, isNameValidL_base name.data h]
    rw [nameBaseValid]
    simp only [Bool.not_eq_eq_eq_not, Bool.not_false, Bool.or_eq_true,
      List.any_eq_true, Bool.or_eq_true, decide_eq_true_eq, beq_iff_eq]
    constructor
    · intro hc
      rcases hc with (⟨c, hcm, hc⟩ | h1) | h2
      · exact Or.inl ⟨c, hcm, hc⟩
      · exact Or.inr (Or.inl h1)
      · exact Or.inr (Or.inr h2)
    · intro hc
      rcases hc with ⟨c, hcm, hc⟩ | h1 | h2
      · exact Or.inl (Or.inl ⟨c, hcm, hc⟩)
      · exact Or.inl (Or.inr h1)
      · exact Or.inr h2

/-- Witness for C9 (amended): a cciss multi-component name is accepted
component-wise; an ordinary name containing `/` is rejected. -/
theorem c9_isNameValid_witness :
    isNameValid "cciss/c0d0" = true ∧ isNameValid "a/b" = false := by
  constructor
  · exact ((c9_isNameValid "cciss/c0d0").1 (by decide)).mpr (by decide)
  · exact ((c9_isNameValid "a/b").2 (by decide)).mpr (by decide)

/-- `p` is an immediate or transitive parent of `d`. -/
inductive InParents : StorageDevice → StorageDevice → Prop where
  | direct {p d : StorageDevice} : p ∈ parentsOf d → InParents p d
  | step {p q d : StorageDevice} : InParents p q → q ∈ parentsOf d → InParents p d

theorem readonlyList_of_mem {p : StorageDevice} {ps : List StorageDevice}
    (hp : p ∈ ps) (h : readonly p = true) : readonlyList ps = true := by
  induction ps with
  | nil => cases hp
  | cons q rest ih =>
    rw [readonlyList]
    rcases List.mem_cons.mp hp with rfl | hmem
    · rw [h, Bool.true_or]
    · rw [ih hmem, Bool.or_true]

theorem readonly_of_parent {p d : StorageDevice} (hp : p ∈ parentsOf d)
    (h : readonly p = true) : readonly d = true := by
  cases d with
  | mk f ps =>
    simp only [parentsOf] at hp
    rw [readonly, readonlyList_of_mem hp h, Bool.or_true]

theorem readonly_of_flag {p : StorageDevice} (h : (fieldsOf p)._readonly = true) :
    readonly p = true := by
  cases p with
  | mk f ps =>
    rw [readonly]
    rw [fieldsOf] at h
    rw [h, Bool.true_or]

theorem encryptedList_of_mem {p : StorageDevice} {ps : List StorageDevice}
    (hp : p ∈ ps) (h : encrypted p = true) : encryptedList ps = true := by
  induction ps with
  | nil => cases hp
  | cons q rest ih =>
    rw [encryptedList]
    rcases List.mem_cons.mp hp with rfl | hmem
    · rw [h, Bool.true_or]
    · rw [ih hmem, Bool.or_true]

theorem encrypted_of_parent {p d : StorageDevice} (hp : p ∈ parentsOf d)
    (h : encrypted p = true) : encrypted d = true := by
  cases d with
  | mk f ps =>
    simp only [parentsOf] at hp
    rw [encrypted, encryptedList_of_mem hp h, Bool.or_true]

theorem encrypted_of_flag {p : StorageDevice} (h : (fieldsOf p)._encrypted = true) :
    encrypted p = true := by
  cases p with
  | mk f ps =>
    rw [encrypted]
    rw [fieldsOf] at h
    rw [h, Bool.true_or]

theorem growableList_of_mem {p : StorageDevice} {ps : List StorageDevice}
    (hp : p ∈ ps) (h : growable p = true) : growableList ps = true := by
  induction ps with
  | nil => cases hp
  | cons q rest ih =>
    rw [growableList]
    rcases List.mem_cons.mp hp with rfl | hmem
    · rw [h, Bool.true_or]
    · rw [ih hmem, Bool.or_true]

theorem growable_of_parent {p d : StorageDevice} (hp : p ∈ parentsOf d)
    (h : growable p = true) : growable d = true := by
  cases d with
  | mk f ps =>
    simp only [parentsOf] at hp
    rw [growable, growableList_of_mem hp h, Bool.or_true]

theorem growable_of_flag {p : StorageDevice} (h : (fieldsOf p).req_grow = true) :
    growable p = true := by
  cases p with
  | mk f ps =>
    rw [growable]
    rw [fieldsOf] at h
    rw [h, Bool.true_or]

/-- Fixture: a parent whose only set flag is the local `_protected`. -/
def c4parent : Fields := { baseF with name := "p0", _protected := true }

/-- Counterexample for C4: a device whose immediate parent has the local
`_protected` flag set (and is itself effectively protected) is *not*
protected — `protected` does not propagate a parent's `_protected` flag
(only `readonly` recurses into parents). -/
theorem c4_protected_counterexample :
    (fieldsOf (.mk c4parent []))._protected = true ∧
    StorageDevice.mk c4parent [] ∈ parentsOf (.mk baseF [.mk c4parent []]) ∧
    protectedDev (.mk c4parent []) = true ∧
    protectedDev (.mk baseF [.mk c4parent []]) = false := by
  refine ⟨rfl, List.mem_cons_self _ _, ?_, ?_⟩
  · decide
  · decide

/-- C4 as amended: `encrypted`, `growable` and `readonly` are true at a
device whenever the corresponding local flag (`_encrypted`, `req_grow`,
`_readonly`) of some immediate or transitive parent is true, and a
parent's `_readonly` flag also makes the device `protected`; a parent's
local `_protected` flag, however, does not propagate (the `protected`
property recurses only through `readonly`). -/
theorem c4_ancestry (d p : StorageDevice) (h : InParents p d) :
    ((fieldsOf p)._encrypted = true → encrypted d = true) ∧
    ((fieldsOf p).req_grow = true → growable d = true) ∧
    ((fieldsOf p)._readonly = true → readonly d = true) ∧
    ((fieldsOf p)._readonly = true → protectedDev d = true) := by
  induction h with
  | direct hmem =>
    refine ⟨?_, ?_, ?_, ?_⟩
    · intro hf
      exact encrypted_of_parent hmem (encrypted_of_flag hf)
    · intro hf
      exact growable_of_parent hmem (growable_of_flag hf)
    · intro hf
      exact readonly_of_parent hmem (readonly_of_flag hf)
    · intro hf
      rw [protectedDev, readonly_of_parent hmem (readonly_of_flag hf), Bool.true_or]
  | step hin hmem ih =>
    refine ⟨?_, ?_, ?_, ?_⟩
    · intro hf
      exact encrypted_of_parent hmem (ih.1 hf)
    · intro hf
      exact growable_of_parent hmem (ih.2.1 hf)
    · intro hf
      exact readonly_of_parent hmem (ih.2.2.1 hf)
    · intro hf
      rw [protectedDev, readonly_of_parent hmem (ih.2.2.1 hf), Bool.true_or]

/-- Fixture: grandparent with all local flags set. -/
def c4d1 : StorageDevice :=
  .mk { baseF with
        name := "g0", _encrypted := true, req_grow := true,
        _readonly := true } []

/-- Fixture: middle device, child of `c4d1`, no flags. -/
def c4d2 : StorageDevice := .mk { baseF with name := "m0" } [c4d1]

/-- Fixture: leaf device, child of `c4d2`, no flags. -/
def c4d3 : StorageDevice := .mk { baseF with name := "l0" } [c4d2]

/-- Witness for C4 (amended): a 3-level chain whose grandparent carries
all local flags propagates them to the leaf. -/
theorem c4_ancestry_witness :
    encrypted c4d3 = true ∧ growable c4d3 = true ∧ readonly c4d3 = true ∧
    protectedDev c4d3 = true := by
  have h := c4_ancestry c4d3 c4d1
    (InParents.step (InParents.direct (List.mem_cons_self _ _))
      (List.mem_cons_self _ _))
  exact ⟨h.1 (by decide), h.2.1 (by decide), h.2.2.1 (by decide),
    h.2.2.2 (by decide)⟩

theorem readCurrentSizeF_set_cur (f : Fields) (x : Nat) :
    readCurrentSizeF { f with _currentSize := x } = readCurrentSizeF f := rfl

theorem resizableF_set_cur (f : Fields) (x : Nat) :
    resizableF { f with _currentSize := x } = resizableF f := rfl

theorem currentSizeF_cache_only (f : Fields) :
    (currentSizeF f).2 = { f with _currentSize := (currentSizeF f).2._currentSize } := by
  rw [currentSizeF]
  split
  · rfl
  · rfl

theorem maxSizeF_cache_only (f : Fields) :
    (maxSizeF f).2 = { f with _currentSize := (maxSizeF f).2._currentSize } := by
  rw [maxSizeF]
  split
  · rfl
  · exact currentSizeF_cache_only f

theorem minSizeF_cache_only (f : Fields) :
    (minSizeF f).2 = { f with _currentSize := (minSizeF f).2._currentSize } := by
  rw [minSizeF]
  split
  · rfl
  · exact currentSizeF_cache_only f

theorem minSizeF_align (f : Fields) : (minSizeF f).2.align = f.align := by
  rw [minSizeF_cache_only f]

theorem currentSizeF_idem (f : Fields) :
    (currentSizeF (currentSizeF f).2).1 = (currentSizeF f).1 := by
  by_cases h0 : f._currentSize = 0
  · by_cases hr : readCurrentSizeF f = 0
    · simp [currentSizeF, h0, hr, readCurrentSizeF_set_cur]
    · simp [currentSizeF, h0, hr, readCurrentSizeF_set_cur]
  · simp [currentSizeF, h0]

/-- Fixture for the C1 counterexample: an existing, non-resizable device
whose probe yields 0, so `maxSize = minSize = currentSize = 0`. -/
def c1fA : Fields := { baseF with devExists := true }

/-- Fixture for the C1 counterexample: an existing, non-resizable device
with an uncached current size whose probe yields one 512-byte sector. -/
def c1fB : Fields :=
  { baseF with
      devExists := true, pathPresent := true, sysfsDir := true, sysfsBlocks := 1 }

/-- Counterexample for C1: (a) with `maxSize = 0` the target-size setter
accepts 5 > 0 = `maxSize` instead of raising (the bound guards are
Python-truthy, so a zero bound is not enforced); (b) an accepted
assignment can also mutate the `_currentSize` cache (0 becomes 512), not
only `targetSize`. -/
theorem c1_counterexample :
    (maxSizeF c1fA).1 = 0 ∧
    (setTargetSize (.mk c1fA []) 5).1 = none ∧
    (fieldsOf (setTargetSize (.mk c1fA []) 5).2)._targetSize = 5 ∧
    c1fB._currentSize = 0 ∧
    (setTargetSize (.mk c1fB []) 512).1 = none ∧
    (fieldsOf (setTargetSize (.mk c1fB []) 512).2)._currentSize = 512 :=
  ⟨rfl, rfl, rfl, rfl, rfl, rfl⟩

/-- C1 as amended: the `targetSize` setter raises exactly when the
device's `maxSize` is non-zero and exceeded, else when the device's
`minSize` is non-zero and undershot, else when `alignTargetSize` changes
the value; otherwise it stores the value as the new `targetSize`,
mutating no field other than (possibly) the lazily-refreshed
`_currentSize` cache consulted by the bound reads.  `maxSize`/`minSize`
are the format's bounds passed through alignment for a resizable device
and both equal `currentSize` for a non-resizable device. -/
theorem c1_target_size_setter (d : StorageDevice) (v : Nat) :
    ((maxSizeF (fieldsOf d)).1 ≠ 0 → v > (maxSizeF (fieldsOf d)).1 →
      setTargetSize d v =
        (some (Err.valueError "size is larger than the maximum for this device"),
         .mk (maxSizeF (fieldsOf d)).2 (parentsOf d))) ∧
    (¬((maxSizeF (fieldsOf d)).1 ≠ 0 ∧ v > (maxSizeF (fieldsOf d)).1) →
      (minSizeF (maxSizeF (fieldsOf d)).2).1 ≠ 0 →
      v < (minSizeF (maxSizeF (fieldsOf d)).2).1 →
      setTargetSize d v =
        (some (Err.valueError "size is smaller than the minimum for this device"),
         .mk (minSizeF (maxSizeF (fieldsOf d)).2).2 (parentsOf d))) ∧
    (¬((maxSizeF (fieldsOf d)).1 ≠ 0 ∧ v > (maxSizeF (fieldsOf d)).1) →
      ¬((minSizeF (maxSizeF (fieldsOf d)).2).1 ≠ 0 ∧
        v < (minSizeF (maxSizeF (fieldsOf d)).2).1) →
      (fieldsOf d).align v ≠ v →
      setTargetSize d v =
        (some (Err.valueError "new size would violate alignment requirements"),
         .mk (minSizeF (maxSizeF (fieldsOf d)).2).2 (parentsOf d))) ∧
    (¬((maxSizeF (fieldsOf d)).1 ≠ 0 ∧ v > (maxSizeF (fieldsOf d)).1) →
      ¬((minSizeF (maxSizeF (fieldsOf d)).2).1 ≠ 0 ∧
        v < (minSizeF (maxSizeF (fieldsOf d)).2).1) →
      (fieldsOf d).align v = v →
      setTargetSize d v =
        (none,
         .mk { (minSizeF (maxSizeF (fieldsOf d)).2).2 with _targetSize := v }
           (parentsOf d))) ∧
    ((minSizeF (maxSizeF (fieldsOf d)).2).2 =
      { fieldsOf d with
          _currentSize := (minSizeF (maxSizeF (fieldsOf d)).2).2._currentSize }) ∧
    (resizableF (fieldsOf d) = true →
      (maxSizeF (fieldsOf d)).1 = (fieldsOf d).align (fieldsOf d)._format.maxSize ∧
      (minSizeF (maxSizeF (fieldsOf d)).2).1 =
        (fieldsOf d).align (fieldsOf d)._format.minSize) ∧
    (resizableF (fieldsOf d) = false →
      (maxSizeF (fieldsOf d)).1 = (currentSizeF (fieldsOf d)).1 ∧
      (minSizeF (maxSizeF (fieldsOf d)).2).1 = (currentSizeF (fieldsOf d)).1) := by
  cases d with
  | mk f ps =>
    simp only [fieldsOf, parentsOf]
    have halign : (maxSizeF f).2.align = f.align := by
      rw [maxSizeF_cache_only f]
    refine ⟨?_, ?_, ?_, ?_, ?_, ?_, ?_⟩
    · intro h1 h2
      rw [setTargetSize, setTargetSizeF]
      simp [h1, h2]
    · intro hn h1 h2
      rw [setTargetSize, setTargetSizeF]
      have hnb : (decide ((maxSizeF f).1 ≠ 0) && decide (v > (maxSizeF f).1)) = false := by
        rcases not_and_or.mp hn with h | h
        · simp [not_not.mp h]
        · simp [h]
      rw [hnb]
      simp only [Bool.false_eq_true, if_false]
      simp [h1, h2]
    · intro hn1 hn2 h3
      rw [setTargetSize, setTargetSizeF]
      have hnb : (decide ((maxSizeF f).1 ≠ 0) && decide (v > (maxSizeF f).1)) = false := by
        rcases not_and_or.mp hn1 with h | h
        · simp [not_not.mp h]
        · simp [h]
      have hnb2 : (decide ((minSizeF (maxSizeF f).2).1 ≠ 0)
          && decide (v < (minSizeF (maxSizeF f).2).1)) = false := by
        rcases not_and_or.mp hn2 with h | h
        · simp [not_not.mp h]
        · simp [h]
      rw [hnb]
      simp only [Bool.false_eq_true, if_false]
      rw [hnb2]
      simp only [Bool.false_eq_true, if_false]
      rw [minSizeF_align, halign]
      simp [h3]
    · intro hn1 hn2 h3
      rw [setTargetSize, setTargetSizeF]
      have hnb : (decide ((maxSizeF f).1 ≠ 0) && decide (v > (maxSizeF f).1)) = false := by
        rcases not_and_or.mp hn1 with h | h
        · simp [not_not.mp h]
        · simp [h]
      have hnb2 : (decide ((minSizeF (maxSizeF f).2).1 ≠ 0)
          && decide (v < (minSizeF (maxSizeF f).2).1)) = false := by
        rcases not_and_or.mp hn2 with h | h
        · simp [not_not.mp h]
        · simp [h]
      rw [hnb]
      simp only [Bool.false_eq_true, if_false]
      rw [hnb2]
      simp only [Bool.false_eq_true, if_false]
      rw [minSizeF_align, halign]
      simp [h3]
    · rw [minSizeF_cache_only (maxSizeF f).2]
      rw [maxSizeF_cache_only f]
    · intro h
      rw [maxSizeF, if_pos h, minSizeF, if_pos h]
      exact ⟨rfl, rfl⟩
    · intro h
      have h2 : resizableF (currentSizeF f).2 = false := by
        rw [currentSizeF_cache_only f, resizableF_set_cur]
        exact h
      rw [maxSizeF, if_neg (by rw [h]; exact Bool.false_ne_true),
        minSizeF, if_neg (by rw [h2]; exact Bool.false_ne_true)]
      exact ⟨rfl, currentSizeF_idem f⟩

/-- Fixture: an existing resizable device whose (resizable, non-existent
on disk is not needed: resizable) format declares bounds 100..1000. -/
def c1w : Fields :=
  { baseF with
      devExists := true, _resizable := true,
      _format := { getFormat none "" false with
        resizable := true, minSize := 100, maxSize := 1000, fmtExists := true } }

/-- Witness for C1 (amended): an in-bounds aligned value is accepted and
stored; an above-maximum value is rejected. -/
theorem c1_target_size_setter_witness :
    setTargetSize (.mk c1w []) 500 = (none, .mk { c1w with _targetSize := 500 } []) ∧
    setTargetSize (.mk c1w []) 2000 =
      (some (Err.valueError "size is larger than the maximum for this device"),
       .mk c1w []) := by
  constructor
  · exact (c1_target_size_setter (.mk c1w []) 500).2.2.2.1
      (by decide) (by decide) (by decide)
  · exact (c1_target_size_setter (.mk c1w []) 2000).1 (by decide) (by decide)

theorem updateNetDev_fmt_device (d : StorageDevice) :
    (fieldsOf (updateNetDev d))._format.device = (fieldsOf d)._format.device := by
  cases d with
  | mk f ps =>
    simp only [updateNetDev]
    split
    · rfl
    · split
      · rfl
      · split
        · rfl
        · rfl

theorem updateNetDev_size (d : StorageDevice) :
    (fieldsOf (updateNetDev d))._size = (fieldsOf d)._size := by
  cases d with
  | mk f ps =>
    simp only [updateNetDev]
    split
    · rfl
    · split
      · rfl
      · split
        · rfl
        · rfl

theorem updateNetDev_devExists (d : StorageDevice) :
    (fieldsOf (updateNetDev d)).devExists = (fieldsOf d).devExists := by
  cases d with
  | mk f ps =>
    simp only [updateNetDev]
    split
    · rfl
    · split
      · rfl
      · split
        · rfl
        · rfl

theorem setFormat_size (d : StorageDevice) (fm? : Option Fmt) :
    (fieldsOf (setFormat d fm?).2)._size = (fieldsOf d)._size := by
  cases d with
  | mk f ps =>
    simp only [setFormat]
    split
    · rfl
    · split
      · rfl
      · split
        · rfl
        · rw [updateNetDev_size]
          rfl

theorem setFormat_devExists (d : StorageDevice) (fm? : Option Fmt) :
    (fieldsOf (setFormat d fm?).2).devExists = (fieldsOf d).devExists := by
  cases d with
  | mk f ps =>
    simp only [setFormat]
    split
    · rfl
    · split
      · rfl
      · split
        · rfl
        · rw [updateNetDev_devExists]
          rfl

/-- Fixture: an existing device of (tracked and cached) size 10. -/
def c5d : Fields := { baseF with devExists := true, _size := 10, _currentSize := 10 }

/-- Fixture: an already-existing inactive format whose maximum size, 5, is
below the device's size. -/
def c5fm : Fmt := { getFormat none "" false with fmtExists := true, maxSize := 5 }

/-- Counterexample for C5: a new format whose declared maximum (5) is
violated by the device's size (10, both effective and current) is
*accepted* because the format already exists — the bounds check only
runs for formats that do not yet exist. -/
theorem c5_counterexample :
    c5fm.maxSize = 5 ∧ sizeGetF c5d = 10 ∧ (currentSizeF c5d).1 = 10 ∧
    (setFormat (.mk c5d []) (some c5fm)).1 = none ∧
    (fieldsOf (setFormat (.mk c5d []) (some c5fm)).2)._format =
      { c5fm with device := "/dev/dev0" } :=
  ⟨rfl, rfl, rfl, rfl, rfl⟩

/-- C5 as amended: assigning a new format is rejected while the existing
format reports active; a format that does **not yet exist** is rejected
when its non-zero declared bounds are violated by the device's effective
size (an already-existing format is exempt from the bounds check); on
acceptance the new format becomes the device's format (up to the
`_netdev` mount-option reconciliation) and its device-path binding
equals the device's path. -/
theorem c5_set_format (d : StorageDevice) (fm : Fmt) :
    ((fieldsOf d)._format.status = true →
      setFormat d (some fm) =
        (some (Err.deviceError "cannot replace active format"
          (some (fieldsOf d).name)), d)) ∧
    ((fieldsOf d)._format.status = false → fm.fmtExists = false →
      fm.maxSize ≠ 0 → fm.maxSize < sizeGet d →
      setFormat d (some fm) =
        (some (Err.deviceError "device is too large for new format" none), d)) ∧
    ((fieldsOf d)._format.status = false → fm.fmtExists = false →
      ¬(fm.maxSize ≠ 0 ∧ fm.maxSize < sizeGet d) →
      fm.minSize ≠ 0 → fm.minSize > sizeGet d →
      setFormat d (some fm) =
        (some (Err.deviceError "device is too small for new format" none), d)) ∧
    ((fieldsOf d)._format.status = false →
      (fm.fmtExists = true ∨
        (¬(fm.maxSize ≠ 0 ∧ fm.maxSize < sizeGet d) ∧
         ¬(fm.minSize ≠ 0 ∧ fm.minSize > sizeGet d))) →
      setFormat d (some fm) =
        (none, updateNetDev (.mk
          { fieldsOf d with _format := { fm with device := pathF (fieldsOf d) } }
          (parentsOf d))) ∧
      (fieldsOf (setFormat d (some fm)).2)._format.device =
        pathF (fieldsOf d)) := by
  cases d with
  | mk f ps =>
    simp only [fieldsOf, parentsOf]
    refine ⟨?_, ?_, ?_, ?_⟩
    · intro h
      rw [setFormat]
      simp [h]
    · intro h0 hex h1 h2
      simp only [sizeGet, fieldsOf] at h2
      rw [setFormat]
      simp [h0, hex, h1, h2]
    · intro h0 hex hn h1 h2
      simp only [sizeGet, fieldsOf] at hn h2
      rw [setFormat]
      have hnb : (!fm.fmtExists && decide (fm.maxSize ≠ 0)
          && decide (fm.maxSize < sizeGetF f)) = false := by
        rcases not_and_or.mp hn with h | h
        · simp [not_not.mp h]
        · simp [h]
      simp [h0, hex, h1, h2, hnb]
      intro hne
      rcases not_and_or.mp hn with h | h
      · exact absurd (not_not.mp h) hne
      · exact Nat.le_of_not_lt h
    · intro h0 hor
      have hmain : setFormat (.mk f ps) (some fm) =
          (none, updateNetDev (.mk
            { f with _format := { fm with device := pathF f } } ps)) := by
        rw [setFormat]
        rcases hor with hex | ⟨hn1, hn2⟩
        · simp [h0, hex]
        · simp only [sizeGet, fieldsOf] at hn1 hn2
          have hc1 : ¬((fm.fmtExists = false ∧ ¬fm.maxSize = 0) ∧
              fm.maxSize < sizeGetF f) := by
            rintro ⟨⟨_, hne⟩, hlt⟩
            rcases not_and_or.mp hn1 with h | h
            · exact h hne
            · exact h hlt
          have hc2 : ¬((fm.fmtExists = false ∧ ¬fm.minSize = 0) ∧
              sizeGetF f < fm.minSize) := by
            rintro ⟨⟨_, hne⟩, hlt⟩
            rcases not_and_or.mp hn2 with h | h
            · exact h hne
            · exact h hlt
          simp [h0, hc1, hc2]
      refine ⟨hmain, ?_⟩
      show (fieldsOf (setFormat (.mk f ps) (some fm)).2)._format.device = pathF f
      rw [hmain]
      show (fieldsOf (updateNetDev (.mk
        { f with _format := { fm with device := pathF f } } ps)))._format.device = pathF f
      rw [updateNetDev_fmt_device]
      rfl

/-- Fixture: an inactive, not-yet-existing format with bounds 5..20. -/
def c5fw : Fmt := { getFormat none "" false with minSize := 5, maxSize := 20 }

/-- Witness for C5 (amended): an active current format causes a raise; an
in-bounds new format on an inactive device is accepted and bound to the
device's path. -/
theorem c5_set_format_witness :
    setFormat (.mk { c5d with _format := { c5d._format with status := true } } [])
        (some c5fw) =
      (some (Err.deviceError "cannot replace active format" (some "dev0")),
       .mk { c5d with _format := { c5d._format with status := true } } []) ∧
    (setFormat (.mk c5d []) (some c5fw)).1 = none ∧
    (fieldsOf (setFormat (.mk c5d []) (some c5fw)).2)._format.device = "/dev/dev0" := by
  refine ⟨?_, ?_, ?_⟩
  · exact (c5_set_format
      (.mk { c5d with _format := { c5d._format with status := true } } []) c5fw).1 rfl
  · have h := (c5_set_format (.mk c5d []) c5fw).2.2.2 rfl
      (Or.inr ⟨by decide, by decide⟩)
    rw [h.1]
  · exact ((c5_set_format (.mk c5d []) c5fw).2.2.2 rfl
      (Or.inr ⟨by decide, by decide⟩)).2

/-- C3: for every `StorageDevice` constructed with `exists=false` and a
format whose declared minimum size exceeds the requested size, the
constructed device's `size` equals the format's minimum size; when the
requested size already meets the format minimum, the requested size is
kept. -/
theorem c3_init_min_size (name : String) (fm : Fmt) (uuid : Option String)
    (size major minor : Nat) (sysfsPath : String) (parents : List StorageDevice)
    (serial : Option String) (vendor model bus : String) (k : Fields)
    (testing : Bool) (d : StorageDevice)
    (h : init name (some fm) uuid size major minor sysfsPath parents false serial
      vendor model bus k testing = .ok d) :
    (fm.minSize > size → sizeGet d = fm.minSize) ∧
    (fm.minSize ≤ size → sizeGet d = size) := by
  simp only [init] at h
  split at h
  · exact absurd h (by simp)
  · next f1 ps1 heq =>
    injection h with h2
    subst h2
    have hde : f1.devExists = false := by
      have h3 := congrArg (fun r => (fieldsOf r.2).devExists) heq
      simp only at h3
      rw [setFormat_devExists] at h3
      exact h3.symm.trans (by rfl)
    have hsz : f1._size =
        (if fm.minSize ≠ 0 then
          if max size fm.minSize > size then max size fm.minSize else size
         else size) := by
      have h3 := congrArg (fun r => (fieldsOf r.2)._size) heq
      simp only at h3
      rw [setFormat_size] at h3
      refine h3.symm.trans ?_
      simp [fieldsOf]
    have hcond : (({ f1 with originalFormat := f1._format }).devExists &&
        statusF { f1 with originalFormat := f1._format }) = false := by
      show (f1.devExists && statusF { f1 with originalFormat := f1._format }) = false
      rw [hde, Bool.false_and]
    have hmain : sizeGet (.mk
        (if ({ f1 with originalFormat := f1._format }).devExists &&
            statusF { f1 with originalFormat := f1._format } then
          updateSizeF { f1 with originalFormat := f1._format }
         else { f1 with originalFormat := f1._format }) ps1) = f1._size := by
      rw [if_neg (by rw [hcond]; exact Bool.false_ne_true)]
      rw [sizeGet]
      show sizeGetF { f1 with originalFormat := f1._format } = f1._size
      have hnc : ¬(({ f1 with originalFormat := f1._format }).devExists &&
          resizableF { f1 with originalFormat := f1._format } &&
          (({ f1 with originalFormat := f1._format })._targetSize != 0)) = true := by
        show ¬(f1.devExists && resizableF { f1 with originalFormat := f1._format }
          && (f1._targetSize != 0)) = true
        rw [hde, Bool.false_and, Bool.false_and]
        exact Bool.false_ne_true
      rw [sizeGetF, if_neg hnc]
    rw [hmain]
    constructor
    · intro hgt
      have hne : fm.minSize ≠ 0 := by omega
      rw [hsz, if_pos hne, Nat.max_eq_right (Nat.le_of_lt hgt), if_pos hgt]
    · intro hle
      by_cases hz : fm.minSize = 0
      · rw [hsz, if_neg (by simp [hz])]
      · rw [hsz, if_pos hz, Nat.max_eq_left hle, if_neg (by omega)]

/-- Fixture: a format declaring a 10 MiB minimum size. -/
def c3fm : Fmt := { getFormat none "" false with minSize := 10485760 }

/-- Fixture: the device state produced by constructing a planned device of
requested size 0 with the 10 MiB-minimum format. -/
def c3dev : Fields :=
  { baseF with
      _size := 10485760, _targetSize := 10485760,
      _format := { c3fm with device := "/dev/dev0" },
      originalFormat := { c3fm with device := "/dev/dev0" } }

/-- Witness for C3: constructing a planned device with requested size 0
and a 10 MiB-minimum format yields a device whose size is 10 MiB. -/
theorem c3_init_min_size_witness :
    init "dev0" (some c3fm) none 0 0 0 "" [] false none "" "" "" baseF false =
      .ok (.mk c3dev []) ∧
    sizeGet (.mk c3dev []) = 10485760 := by
  constructor
  · rfl
  · exact (c3_init_min_size "dev0" c3fm none 0 0 0 "" [] none "" "" "" baseF false
      (.mk c3dev []) (by rfl)).1 (by decide)

/-- Fixture: an existing, active, controllable parent device named `par0`
whose original format exists on disk. -/
def c8p : Fields :=
  { baseF with
      name := "par0", devExists := true, accessibleW := true,
      originalFormat := { getFormat none "" false with fmtExists := true } }

/-- Fixture: an existing but inactive device (write access probe fails). -/
def c8d : Fields := { baseF with devExists := true }

/-- Counterexample for C8: a recursive `teardown` on an *inactive* device
is not a no-op — it still recursively tears down the parents (here the
parent's original format is torn down, udev settles and the parent's
deactivation primitive runs). -/
theorem c8_teardown_counterexample :
    statusF c8d = false ∧
    (teardown (.mk c8d [.mk c8p []]) true).2.2 =
      [Ev.origFmtTeardown "par0", Ev.settle, Ev.teardownPrim "par0"] ∧
    (teardown (.mk c8d [.mk c8p []]) true).2.2 ≠ [] := by
  refine ⟨rfl, rfl, by decide⟩

/-- C8 as amended: `teardown` raises the not-created device error when
the device does not exist and the call is not recursive; when the device
is inactive, non-controllable, or protected it touches neither its own
state nor its formats and invokes nothing — *except* that a recursive
call still recursively tears down the parents; only otherwise are the
original format and the current format torn down (each if it exists),
udev settled, the deactivation primitive run, and (only for a recursive
call) the parents torn down. -/
theorem c8_teardown (d : StorageDevice) (recursive : Bool) :
    ((fieldsOf d).devExists = false → recursive = false →
      teardown d recursive = (some (Err.deviceError "device has not been created"
        (some (fieldsOf d).name)), d, [])) ∧
    (((fieldsOf d).devExists = true ∨ recursive = true) →
      (statusF (fieldsOf d) = false ∨ (fieldsOf d).controllable = false ∨
        protectedDev d = true) →
      ((recursive = false → teardown d false = (none, d, [])) ∧
       (recursive = true →
        teardown d true =
          ((teardownList (parentsOf d) true).1,
           .mk (fieldsOf d) (teardownList (parentsOf d) true).2.1,
           (teardownList (parentsOf d) true).2.2)))) ∧
    (((fieldsOf d).devExists = true ∨ recursive = true) →
      statusF (fieldsOf d) = true → (fieldsOf d).controllable = true →
      protectedDev d = false →
      teardown d recursive =
        (let f1 := if (fieldsOf d).originalFormat.fmtExists then
            { fieldsOf d with
                originalFormat := fmtTeardownOp (fieldsOf d).originalFormat }
          else fieldsOf d
         let f2 := if f1._format.fmtExists then
            { f1 with _format := fmtTeardownOp f1._format } else f1
         let evs := (if (fieldsOf d).originalFormat.fmtExists then
              [Ev.origFmtTeardown (fieldsOf d).name] else []) ++
            (if f1._format.fmtExists then
              [Ev.fmtTeardownEv (fieldsOf d).name] else []) ++
            [Ev.settle] ++ [Ev.teardownPrim (fieldsOf d).name]
         if recursive then
           ((teardownList (parentsOf d) recursive).1,
            .mk f2 (teardownList (parentsOf d) recursive).2.1,
            evs ++ (teardownList (parentsOf d) recursive).2.2)
         else (none, .mk f2 (parentsOf d), evs))) := by
  cases d with
  | mk f ps =>
    simp only [fieldsOf, parentsOf]
    refine ⟨?_, ?_, ?_⟩
    · intro h1 h2
      subst h2
      rw [teardown]
      simp [preTeardownF, h1]
    · intro hor hskip
      constructor
      · intro hr
        subst hr
        have hex : f.devExists = true := by
          rcases hor with he | he
          · exact he
          · exact absurd he (by simp)
        rw [teardown]
        rw [preTeardownF, if_neg (by simp [hex]), if_pos ?side]
        case side =>
          rcases hskip with h | h | h <;> simp [h]
        rfl
      · intro hr
        subst hr
        rw [teardown]
        rw [preTeardownF, if_neg (by simp), if_pos ?side2]
        case side2 =>
          rcases hskip with h | h | h <;> simp [h]
        rfl
    · intro hor hst hctl hprot
      rw [teardown]
      rw [preTeardownF, if_neg ?c1, if_neg ?c2]
      case c1 =>
        cases recursive with
        | false =>
          have hex : f.devExists = true := by
            rcases hor with he | he
            · exact he
            · exact absurd he (by simp)
          simp [hex]
        | true => simp
      case c2 =>
        simp [hst, hctl, hprot]
      by_cases ho : f.originalFormat.fmtExists = true
      · by_cases hf : f._format.fmtExists = true
        · cases recursive <;> simp [ho, hf]
        · cases recursive <;> simp [ho, hf]
      · by_cases hf : f._format.fmtExists = true
        · cases recursive <;> simp [ho, hf]
        · cases recursive <;> simp [ho, hf]

/-- Witness for C8 (amended): a non-existent device raises on a
non-recursive teardown, and an active controllable device with an
existing original format tears it down, settles and runs the
deactivation primitive. -/
theorem c8_teardown_witness :
    teardown (.mk baseF []) false =
      (some (Err.deviceError "device has not been created" (some "dev0")),
       .mk baseF [], []) ∧
    teardown (.mk c8p []) false =
      (none, .mk { c8p with originalFormat := fmtTeardownOp c8p.originalFormat } [],
       [Ev.origFmtTeardown "par0", Ev.settle, Ev.teardownPrim "par0"]) := by
  constructor
  · exact (c8_teardown (.mk baseF []) false).1 rfl rfl
  · have h := (c8_teardown (.mk c8p []) false).2.2 (Or.inl rfl) rfl rfl (by decide)
    exact h.trans (by rfl)
